import Mathlib

/-! LED actuator task (`source/led_task.c`)

A shallow embedding of `task_led`: the PWM driver calls the task makes are
recorded as a trace of `HwCall` values, the task's locals (`led_on`,
`led_cmd_data`) are an explicit state, and one pass through the body of the
`for(;;)` loop is a function from the state and the outcome of
`xQueueReceive` to the next state and the calls made.

The limits `LED_MAX_BRIGHTNESS` and `LED_MIN_BRIGHTNESS` are declared in
`led_task.h`; here they are parameters (`Config`). The enumeration
`led_command_t` is the three tags the `switch` names plus every other value.
The duty argument of `cyhal_pwm_set_duty_cycle` is a `uint32_t` expression
passed to a `float` parameter; the trace records the converted value.
-/

namespace LedTask

/-- Tags of a LED command: the three `case` labels of the `switch` in
`task_led`, and `invalid raw` for any other value of the enumeration
(the `default:` label). -/
inductive led_command_t where
  | LED_TURN_ON
  | LED_TURN_OFF
  | LED_UPDATE_BRIGHTNESS
  | invalid (raw : Nat)
  deriving DecidableEq, Repr

/-- The queue element: a tag and a brightness (`uint32_t`, so a well-formed
value is below `2 ^ 32`). -/
structure led_command_data_t where
  command : led_command_t
  brightness : Nat
  deriving DecidableEq, Repr

/-- The two brightness limits of `led_task.h`, taken as parameters. -/
structure Config where
  LED_MAX_BRIGHTNESS : Nat
  LED_MIN_BRIGHTNESS : Nat
  deriving DecidableEq, Repr

/-- Number of values of a `uint32_t`. -/
def UINT32_RANGE : Nat := 4294967296

/-- `#define PWM_LED_FREQ_HZ (1000000u)`. -/
def PWM_LED_FREQ_HZ : Nat := 1000000

/-- `#define GET_DUTY_CYCLE(x) (100 - x)` at an operand of type `uint32_t`:
the subtraction is carried out modulo `2 ^ 32`. -/
def GET_DUTY_CYCLE (x : Nat) : Nat :=
  (UINT32_RANGE + 100 - x % UINT32_RANGE) % UINT32_RANGE

/-- Spacing of the `float` values (IEEE 754 binary32, 24-bit significand)
around a `uint32_t` value: 1 below `2 ^ 24`, doubling with every further bit. -/
def float_ulp (n : Nat) : Nat :=
  if n < 16777216 then 1
  else if n < 33554432 then 2
  else if n < 67108864 then 4
  else if n < 134217728 then 8
  else if n < 268435456 then 16
  else if n < 536870912 then 32
  else if n < 1073741824 then 64
  else if n < 2147483648 then 128
  else 256

/-- Conversion of a `uint32_t` value to `float`, which the call of
`cyhal_pwm_set_duty_cycle` applies to the argument `GET_DUTY_CYCLE(...)`
because the parameter `duty_cycle` of the driver is a `float`: the nearest
`float`, ties to the even significand. The result is a whole number
(at most `2 ^ 32`), kept as a `Nat`; values below `2 ^ 24` are unchanged. -/
def uint32_to_float (n : Nat) : Nat :=
  let u := float_ulp n
  let q := n / u
  let r := n % u
  if 2 * r < u then q * u
  else if u < 2 * r then (q + 1) * u
  else if q % 2 = 0 then q * u
  else (q + 1) * u

/-- The calls `task_led` makes on the PWM driver, with the arguments that
vary (the handle is always `&pwm_led`). `duty_cycle` is the value of the
`float` argument the driver receives, a whole number here. -/
inductive HwCall where
  | cyhal_pwm_init
  | cyhal_pwm_set_duty_cycle (duty_cycle : Nat) (frequencyhz : Nat)
  | cyhal_pwm_start
  | cyhal_pwm_stop
  deriving DecidableEq, Repr

/-- The locals of `task_led` that live across loop iterations. -/
structure TaskState where
  led_on : Bool
  led_cmd_data : led_command_data_t
  deriving DecidableEq, Repr

/-- The `switch(led_cmd_data.command)` statement (lines 104-153), run on the
state whose buffer already holds the received command. -/
def task_led_switch (cfg : Config) (st : TaskState) : TaskState × List HwCall :=
  match st.led_cmd_data.command with
  | led_command_t.LED_TURN_ON =>
    if !st.led_on then
      ({ led_on := true,
         led_cmd_data := { st.led_cmd_data with
                           brightness := cfg.LED_MAX_BRIGHTNESS % UINT32_RANGE } },
       [HwCall.cyhal_pwm_start])
    else (st, [])
  | led_command_t.LED_TURN_OFF =>
    if st.led_on then
      ({ led_on := false,
         led_cmd_data := { st.led_cmd_data with brightness := 0 } },
       [HwCall.cyhal_pwm_stop])
    else (st, [])
  | led_command_t.LED_UPDATE_BRIGHTNESS =>
    if st.led_on || (!st.led_on && decide (st.led_cmd_data.brightness > 0)) then
      let brightness : Nat :=
        if st.led_cmd_data.brightness < cfg.LED_MIN_BRIGHTNESS
        then cfg.LED_MIN_BRIGHTNESS else st.led_cmd_data.brightness
      ({ st with led_on := true },
       [HwCall.cyhal_pwm_start,
        HwCall.cyhal_pwm_set_duty_cycle (uint32_to_float (GET_DUTY_CYCLE brightness))
          PWM_LED_FREQ_HZ])
    else (st, [])
  | led_command_t.invalid _ => (st, [])

/-- One pass through the body of the `for(;;)` loop (lines 98-162).
`rx = some d`: `xQueueReceive` returned `pdTRUE` and copied `d` into
`led_cmd_data`; `rx = none`: it returned without data and the buffer keeps
its old contents. -/
def task_led_iteration (cfg : Config) (st : TaskState)
    (rx : Option led_command_data_t) : TaskState × List HwCall :=
  match rx with
  | some d => task_led_switch cfg { st with led_cmd_data := d }
  | none => (st, [])

/-- The code before the loop (lines 80-92). `buf` is the content of the
uninitialised local `led_cmd_data`. -/
def task_led_init (cfg : Config) (buf : led_command_data_t) : TaskState × List HwCall :=
  ({ led_on := true, led_cmd_data := buf },
   [HwCall.cyhal_pwm_init,
    HwCall.cyhal_pwm_set_duty_cycle (uint32_to_float (GET_DUTY_CYCLE cfg.LED_MAX_BRIGHTNESS))
      PWM_LED_FREQ_HZ,
    HwCall.cyhal_pwm_start])

/-- The loop run over a finite sequence of receive outcomes. -/
def task_led_loop (cfg : Config) : TaskState → List (Option led_command_data_t) →
    TaskState × List HwCall
  | st, [] => (st, [])
  | st, rx :: rest =>
    let r := task_led_iteration cfg st rx
    let r2 := task_led_loop cfg r.1 rest
    (r2.1, r.2 ++ r2.2)

/-- The task from its entry: initialisation, then the loop over `rxs`. -/
def task_led (cfg : Config) (buf : led_command_data_t)
    (rxs : List (Option led_command_data_t)) : TaskState × List HwCall :=
  let i := task_led_init cfg buf
  let r := task_led_loop cfg i.1 rxs
  (r.1, i.2 ++ r.2)

/-- One loop iteration seen as a step on `is_on` alone: the command `cmd` is
received in state `is_on` (the receive overwrites the whole buffer, so its old
content plays no part). -/
def step (cfg : Config) (is_on : Bool) (cmd : led_command_data_t) : Bool :=
  (task_led_iteration cfg { led_on := is_on, led_cmd_data := cmd } (some cmd)).1.led_on

/-- The calls made by one loop iteration that receives `cmd` in state `is_on`. -/
def step_calls (cfg : Config) (is_on : Bool) (cmd : led_command_data_t) : List HwCall :=
  (task_led_iteration cfg { led_on := is_on, led_cmd_data := cmd } (some cmd)).2

/-! ## The PWM output as seen through the trace -/

/-- What the trace tells about the PWM block: whether the output runs and
the duty cycle programmed last. -/
structure PwmHw where
  running : Bool
  duty : Option Nat
  deriving DecidableEq, Repr

/-- Effect of one driver call: start sets the running flag, stop clears it,
set_duty_cycle records the duty. -/
def PwmHw.apply (hw : PwmHw) : HwCall → PwmHw
  | HwCall.cyhal_pwm_init => hw
  | HwCall.cyhal_pwm_set_duty_cycle d _ => { hw with duty := some d }
  | HwCall.cyhal_pwm_start => { hw with running := true }
  | HwCall.cyhal_pwm_stop => { hw with running := false }

/-- Effect of a trace of driver calls. -/
def PwmHw.run (hw : PwmHw) (cs : List HwCall) : PwmHw :=
  cs.foldl PwmHw.apply hw

/-- The PWM block before `task_led` runs. -/
def PwmHw.reset : PwmHw := { running := false, duty := none }

/-- The calls of a trace that repeat the state the output is already in: a
start issued while running, a stop issued while stopped. `running` is the
flag before the trace. -/
def redundant_calls : Bool → List HwCall → List HwCall
  | _, [] => []
  | running, HwCall.cyhal_pwm_start :: cs =>
    if running then HwCall.cyhal_pwm_start :: redundant_calls true cs
    else redundant_calls true cs
  | running, HwCall.cyhal_pwm_stop :: cs =>
    if running then redundant_calls false cs
    else HwCall.cyhal_pwm_stop :: redundant_calls false cs
  | running, _ :: cs => redundant_calls running cs

/-- The duty values passed to `cyhal_pwm_set_duty_cycle` in a trace, in order. -/
def duties : List HwCall → List Nat
  | [] => []
  | HwCall.cyhal_pwm_set_duty_cycle d _ :: cs => d :: duties cs
  | _ :: cs => duties cs

/-- Number of `cyhal_pwm_stop` calls in a trace. -/
def stop_count (cs : List HwCall) : Nat :=
  cs.count HwCall.cyhal_pwm_stop

/-- One loop iteration that receives `cmd`, on the task state together with
the PWM block the calls act on. -/
def step_hw (cfg : Config) (s : TaskState × PwmHw) (cmd : led_command_data_t) :
    TaskState × PwmHw :=
  let r := task_led_iteration cfg s.1 (some cmd)
  (r.1, PwmHw.run s.2 r.2)

/-! ## Concrete inputs for the runs evaluated below -/

/-- A concrete configuration with `LED_MIN_BRIGHTNESS <= LED_MAX_BRIGHTNESS <= 100`. -/
def cfg_ref : Config := { LED_MAX_BRIGHTNESS := 100, LED_MIN_BRIGHTNESS := 2 }

/-- Some content of the receive buffer before the first receive. -/
def buf_any : led_command_data_t := ⟨led_command_t.invalid 0, 0⟩

/-- A concrete sequence of receive outcomes: SetBrightness(0), TurnOff, a
time-out, SetBrightness(60), and a command with an unknown tag. -/
def rxs_ref : List (Option led_command_data_t) :=
  [some ⟨led_command_t.LED_UPDATE_BRIGHTNESS, 0⟩,
   some ⟨led_command_t.LED_TURN_OFF, 7⟩,
   none,
   some ⟨led_command_t.LED_UPDATE_BRIGHTNESS, 60⟩,
   some ⟨led_command_t.invalid 9, 500⟩]

/-! ## Theorems -/

/-- Without wrap-around `GET_DUTY_CYCLE` is the plain difference. -/
theorem GET_DUTY_CYCLE_of_le (x : Nat) (hx : x ≤ 100) : GET_DUTY_CYCLE x = 100 - x := by
  unfold GET_DUTY_CYCLE UINT32_RANGE
  omega

/-- Above 100 the unsigned subtraction wraps. -/
theorem GET_DUTY_CYCLE_of_gt (x : Nat) (hx : 100 < x) (hx32 : x < UINT32_RANGE) :
    GET_DUTY_CYCLE x = UINT32_RANGE + 100 - x := by
  unfold GET_DUTY_CYCLE UINT32_RANGE at *
  omega

/-- Below `2 ^ 24` the conversion to `float` is exact. -/
theorem uint32_to_float_of_lt (n : Nat) (hn : n < 16777216) : uint32_to_float n = n := by
  simp [uint32_to_float, float_ulp, hn, Nat.mod_one]

/-- The spacing is positive and at most 256. -/
theorem float_ulp_bounds (n : Nat) : 0 < float_ulp n ∧ float_ulp n ≤ 256 := by
  unfold float_ulp
  split_ifs <;> omega

/-- The conversion to `float` is at least the value rounded down to the spacing. -/
theorem uint32_to_float_ge (n : Nat) :
    n / float_ulp n * float_ulp n ≤ uint32_to_float n := by
  unfold uint32_to_float
  simp only
  split_ifs
  · exact le_refl _
  · exact Nat.mul_le_mul_right _ (Nat.le_succ _)
  · exact le_refl _
  · exact Nat.mul_le_mul_right _ (Nat.le_succ _)

/-- The conversion to `float` never takes a value above 100 to one at most 100. -/
theorem uint32_to_float_gt_100 (n : Nat) (hn : 100 < n) : 100 < uint32_to_float n := by
  by_cases h : n < 16777216
  · rw [uint32_to_float_of_lt n h]
    exact hn
  · have hu := float_ulp_bounds n
    have hmod : n % float_ulp n < float_ulp n := Nat.mod_lt _ hu.1
    have hdiv : n / float_ulp n * float_ulp n + n % float_ulp n = n := Nat.div_add_mod' n _
    have hge := uint32_to_float_ge n
    omega

/-- The duty argument of a brightness up to 100 is the plain difference. -/
theorem duty_arg_of_le (x : Nat) (hx : x ≤ 100) :
    uint32_to_float (GET_DUTY_CYCLE x) = 100 - x := by
  rw [GET_DUTY_CYCLE_of_le x hx, uint32_to_float_of_lt _ (by omega)]

/-- For a brightness up to 100 the conversion leaves the duty argument as it is. -/
theorem duty_arg_eq_of_le (x : Nat) (hx : x ≤ 100) :
    uint32_to_float (GET_DUTY_CYCLE x) = GET_DUTY_CYCLE x := by
  rw [duty_arg_of_le x hx, GET_DUTY_CYCLE_of_le x hx]

/-- The calls of an applied LED_UPDATE_BRIGHTNESS. -/
theorem step_calls_update (cfg : Config) (is_on : Bool) (b : Nat)
    (h : is_on = true ∨ 0 < b) :
    step_calls cfg is_on ⟨led_command_t.LED_UPDATE_BRIGHTNESS, b⟩ =
      [HwCall.cyhal_pwm_start,
       HwCall.cyhal_pwm_set_duty_cycle
         (uint32_to_float
           (GET_DUTY_CYCLE (if b < cfg.LED_MIN_BRIGHTNESS then cfg.LED_MIN_BRIGHTNESS else b)))
         PWM_LED_FREQ_HZ] := by
  rcases h with h | h
  · subst h
    simp [step_calls, task_led_iteration, task_led_switch]
  · cases is_on <;> simp [step_calls, task_led_iteration, task_led_switch, h]

/-- C2 (failing run): right after initialisation the output runs, and a
received SetBrightness(50) makes the task call `cyhal_pwm_start` again. -/
theorem setbrightness_while_on_starts_again :
    (task_led cfg_ref buf_any [some ⟨led_command_t.LED_UPDATE_BRIGHTNESS, 50⟩]).2 =
      [HwCall.cyhal_pwm_init,
       HwCall.cyhal_pwm_set_duty_cycle 0 1000000,
       HwCall.cyhal_pwm_start,
       HwCall.cyhal_pwm_start,
       HwCall.cyhal_pwm_set_duty_cycle 50 1000000] ∧
    redundant_calls false
      (task_led cfg_ref buf_any [some ⟨led_command_t.LED_UPDATE_BRIGHTNESS, 50⟩]).2 =
      [HwCall.cyhal_pwm_start] := by
  constructor <;> rfl

/-- C3 (failing run): TurnOn while off calls only `cyhal_pwm_start`; after
SetBrightness(30), TurnOff, TurnOn the duty programmed last is still 70,
while `GET_DUTY_CYCLE(LED_MAX_BRIGHTNESS)` is 0. -/
theorem turn_on_does_not_program_duty :
    step_calls cfg_ref false ⟨led_command_t.LED_TURN_ON, 0⟩ = [HwCall.cyhal_pwm_start] ∧
    (PwmHw.run PwmHw.reset
      (task_led cfg_ref buf_any
        [some ⟨led_command_t.LED_UPDATE_BRIGHTNESS, 30⟩,
         some ⟨led_command_t.LED_TURN_OFF, 0⟩,
         some ⟨led_command_t.LED_TURN_ON, 0⟩]).2).duty = some 70 ∧
    GET_DUTY_CYCLE cfg_ref.LED_MAX_BRIGHTNESS = 0 := by
  refine ⟨?_, ?_, ?_⟩ <;> rfl

/-- C4 (counterexample): for SetBrightness(150) while on the argument is
`(100 - 150) mod 2^32 = 4294967246`, which the call converts to the `float`
4294967296; the duty passed is not 0. -/
theorem setbrightness_150_not_clamped :
    GET_DUTY_CYCLE 150 = 4294967246 ∧
    step_calls cfg_ref true ⟨led_command_t.LED_UPDATE_BRIGHTNESS, 150⟩ =
      [HwCall.cyhal_pwm_start, HwCall.cyhal_pwm_set_duty_cycle 4294967296 1000000] ∧
    duties (step_calls cfg_ref true ⟨led_command_t.LED_UPDATE_BRIGHTNESS, 150⟩) ≠ [0] := by
  refine ⟨rfl, rfl, ?_⟩
  decide

/-- C4 (amended): there is no clamp from above. With
`LED_MIN_BRIGHTNESS <= 100`, for an applied SetBrightness(b) with
`100 < b < 2^32` the argument `GET_DUTY_CYCLE(brightness)` is
`(100 - b) mod 2^32 = 2^32 + 100 - b`, and the duty passed to
`cyhal_pwm_set_duty_cycle` is that value converted to `float`, a value
above 100. -/
theorem setbrightness_above_100_wraps (cfg : Config) (is_on : Bool) (b : Nat)
    (hmin : cfg.LED_MIN_BRIGHTNESS ≤ 100) (hb : 100 < b) (hb32 : b < UINT32_RANGE) :
    step_calls cfg is_on ⟨led_command_t.LED_UPDATE_BRIGHTNESS, b⟩ =
      [HwCall.cyhal_pwm_start,
       HwCall.cyhal_pwm_set_duty_cycle (uint32_to_float (UINT32_RANGE + 100 - b))
         PWM_LED_FREQ_HZ] ∧
    GET_DUTY_CYCLE b = UINT32_RANGE + 100 - b ∧
    100 < UINT32_RANGE + 100 - b ∧
    100 < uint32_to_float (UINT32_RANGE + 100 - b) := by
  have hnot : ¬ b < cfg.LED_MIN_BRIGHTNESS := by omega
  have hwrap : 100 < UINT32_RANGE + 100 - b := by
    unfold UINT32_RANGE at *
    omega
  refine ⟨?_, GET_DUTY_CYCLE_of_gt b hb hb32, hwrap, uint32_to_float_gt_100 _ hwrap⟩
  rw [step_calls_update cfg is_on b (Or.inr (by omega)), if_neg hnot,
    GET_DUTY_CYCLE_of_gt b hb hb32]

/-- Witness for C4 (amended) at SetBrightness(150) while on. -/
theorem setbrightness_above_100_wraps_witness :
    step_calls cfg_ref true ⟨led_command_t.LED_UPDATE_BRIGHTNESS, 150⟩ =
      [HwCall.cyhal_pwm_start,
       HwCall.cyhal_pwm_set_duty_cycle (uint32_to_float (UINT32_RANGE + 100 - 150))
         PWM_LED_FREQ_HZ] ∧
    GET_DUTY_CYCLE 150 = UINT32_RANGE + 100 - 150 ∧
    100 < UINT32_RANGE + 100 - 150 ∧
    100 < uint32_to_float (UINT32_RANGE + 100 - 150) :=
  setbrightness_above_100_wraps cfg_ref true 150 (by decide) (by decide) (by decide)

/-- The duties of a concatenated trace. -/
theorem duties_append (xs ys : List HwCall) : duties (xs ++ ys) = duties xs ++ duties ys := by
  induction xs with
  | nil => rfl
  | cons x xs ih => cases x <;> simp [duties, ih]

/-- The duties programmed by one loop iteration whose SetBrightness level, if
any, is at most 100. -/
theorem iteration_duties_in_range (cfg : Config) (st : TaskState)
    (rx : Option led_command_data_t) (hmin : cfg.LED_MIN_BRIGHTNESS ≤ 100)
    (hlev : ∀ c, rx = some c → c.command = led_command_t.LED_UPDATE_BRIGHTNESS →
      c.brightness ≤ 100) :
    ∀ d ∈ duties (task_led_iteration cfg st rx).2,
      ∃ c, cfg.LED_MIN_BRIGHTNESS ≤ c ∧ c ≤ 100 ∧ d = 100 - c := by
  intro d hd
  cases rx with
  | none => simp [task_led_iteration, duties] at hd
  | some c =>
    obtain ⟨tag, b⟩ := c
    cases tag with
    | LED_TURN_ON =>
      revert hd
      simp only [task_led_iteration, task_led_switch]
      split <;> simp [duties]
    | LED_TURN_OFF =>
      revert hd
      simp only [task_led_iteration, task_led_switch]
      split <;> simp [duties]
    | invalid raw => simp [task_led_iteration, task_led_switch, duties] at hd
    | LED_UPDATE_BRIGHTNESS =>
      have hb : b ≤ 100 := hlev ⟨led_command_t.LED_UPDATE_BRIGHTNESS, b⟩ rfl rfl
      revert hd
      simp only [task_led_iteration, task_led_switch]
      split
      · simp only [duties, List.mem_singleton]
        intro hd
        subst hd
        by_cases h : b < cfg.LED_MIN_BRIGHTNESS
        · exact ⟨cfg.LED_MIN_BRIGHTNESS, le_refl _, hmin, by
            rw [if_pos h, duty_arg_of_le _ hmin]⟩
        · exact ⟨b, by omega, hb, by rw [if_neg h, duty_arg_of_le _ hb]⟩
      · simp [duties]

/-- The duties programmed by the loop over receive outcomes whose
SetBrightness levels are at most 100. -/
theorem loop_duties_in_range (cfg : Config) (hmin : cfg.LED_MIN_BRIGHTNESS ≤ 100)
    (rxs : List (Option led_command_data_t)) :
    ∀ st : TaskState,
    (∀ c, some c ∈ rxs → c.command = led_command_t.LED_UPDATE_BRIGHTNESS →
      c.brightness ≤ 100) →
    ∀ d ∈ duties (task_led_loop cfg st rxs).2,
      ∃ c, cfg.LED_MIN_BRIGHTNESS ≤ c ∧ c ≤ 100 ∧ d = 100 - c := by
  induction rxs with
  | nil =>
    intro st _ d hd
    simp [task_led_loop, duties] at hd
  | cons rx rest ih =>
    intro st hlev d hd
    simp only [task_led_loop, duties_append, List.mem_append] at hd
    rcases hd with hd | hd
    · refine iteration_duties_in_range cfg st rx hmin ?_ d hd
      intro c hc
      exact hlev c (by simp [hc])
    · refine ih _ ?_ d hd
      intro c hc
      exact hlev c (List.mem_cons_of_mem _ hc)

/-- C6 (counterexample): from the initial state, one received
SetBrightness(150) makes the task pass the duty 4294967296 (the `float`
nearest to `(100 - 150) mod 2^32`), which is above 100, to
`cyhal_pwm_set_duty_cycle`. -/
theorem run_duty_out_of_range :
    duties (task_led cfg_ref buf_any
      [some ⟨led_command_t.LED_UPDATE_BRIGHTNESS, 150⟩]).2 = [0, 4294967296] ∧
    ¬ (∀ d ∈ duties (task_led cfg_ref buf_any
      [some ⟨led_command_t.LED_UPDATE_BRIGHTNESS, 150⟩]).2, d ≤ 100) := by
  have h : duties (task_led cfg_ref buf_any
      [some ⟨led_command_t.LED_UPDATE_BRIGHTNESS, 150⟩]).2 = [0, 4294967296] := rfl
  refine ⟨h, ?_⟩
  rw [h]
  intro hall
  have := hall 4294967296 (by simp)
  omega

/-- C6 (amended): assume `LED_MIN_BRIGHTNESS <= LED_MAX_BRIGHTNESS <= 100`.
Over every finite sequence of receive outcomes (any tags, time-outs included)
in which every SetBrightness level is at most 100, every value passed to
`cyhal_pwm_set_duty_cycle`, the one of the initialisation included, is
`100 - c` for a `c` with `LED_MIN_BRIGHTNESS <= c <= 100`, hence at most 100. -/
theorem run_duties_in_range (cfg : Config) (buf : led_command_data_t)
    (rxs : List (Option led_command_data_t))
    (hmin : cfg.LED_MIN_BRIGHTNESS ≤ cfg.LED_MAX_BRIGHTNESS)
    (hmax : cfg.LED_MAX_BRIGHTNESS ≤ 100)
    (hlev : ∀ c, some c ∈ rxs → c.command = led_command_t.LED_UPDATE_BRIGHTNESS →
      c.brightness ≤ 100) :
    ∀ d ∈ duties (task_led cfg buf rxs).2,
      (∃ c, cfg.LED_MIN_BRIGHTNESS ≤ c ∧ c ≤ 100 ∧ d = 100 - c) ∧ d ≤ 100 := by
  have key : ∀ d ∈ duties (task_led cfg buf rxs).2,
      ∃ c, cfg.LED_MIN_BRIGHTNESS ≤ c ∧ c ≤ 100 ∧ d = 100 - c := by
    intro d hd
    simp only [task_led, task_led_init, duties_append, List.mem_append] at hd
    rcases hd with hd | hd
    · simp only [duties, List.mem_singleton] at hd
      exact ⟨cfg.LED_MAX_BRIGHTNESS, hmin, hmax, by
        rw [hd, duty_arg_of_le _ hmax]⟩
    · exact loop_duties_in_range cfg (le_trans hmin hmax) rxs _ hlev d hd
  intro d hd
  obtain ⟨c, h1, h2, h3⟩ := key d hd
  exact ⟨⟨c, h1, h2, h3⟩, by omega⟩

/-- Witness for C6 (amended): in the run SetBrightness(0), TurnOff, time-out,
SetBrightness(60), an unknown tag, the duty 40 is programmed and is in range. -/
theorem run_duties_in_range_witness :
    cfg_ref.LED_MIN_BRIGHTNESS ≤ cfg_ref.LED_MAX_BRIGHTNESS ∧
    cfg_ref.LED_MAX_BRIGHTNESS ≤ 100 ∧
    duties (task_led cfg_ref buf_any rxs_ref).2 = [0, 98, 40] ∧
    ((∃ c, cfg_ref.LED_MIN_BRIGHTNESS ≤ c ∧ c ≤ 100 ∧ 40 = 100 - c) ∧ 40 ≤ 100) :=
  ⟨by decide, by decide, rfl,
   run_duties_in_range cfg_ref buf_any rxs_ref (by decide) (by decide) (by
      intro c hc htag
      simp only [rxs_ref, List.mem_cons, Option.some.injEq, List.mem_nil_iff, or_false] at hc
      rcases hc with rfl | rfl | hc | rfl | rfl
      · decide
      · decide
      · cases hc
      · decide
      · cases htag)
    40 (by rw [show duties (task_led cfg_ref buf_any rxs_ref).2 = [0, 98, 40] from rfl]; simp)⟩

/-- C7: TurnOn while on and TurnOff while off each make no driver call at all
(so the state of the PWM block, its programmed duty included, is unchanged)
and leave `is_on` as it was. -/
theorem turn_on_off_idempotent (cfg : Config) (b : Nat) (hw : PwmHw) :
    step_calls cfg true ⟨led_command_t.LED_TURN_ON, b⟩ = [] ∧
    step cfg true ⟨led_command_t.LED_TURN_ON, b⟩ = true ∧
    PwmHw.run hw (step_calls cfg true ⟨led_command_t.LED_TURN_ON, b⟩) = hw ∧
    step_calls cfg false ⟨led_command_t.LED_TURN_OFF, b⟩ = [] ∧
    step cfg false ⟨led_command_t.LED_TURN_OFF, b⟩ = false ∧
    PwmHw.run hw (step_calls cfg false ⟨led_command_t.LED_TURN_OFF, b⟩) = hw := by
  simp [step, step_calls, task_led_iteration, task_led_switch, PwmHw.run]

/-- C8 (Scenario A): with `LED_MAX_BRIGHTNESS <= 100`, after the
initialisation `led_on` is true, the output runs and the programmed duty is
`100 - LED_MAX_BRIGHTNESS`; the first TurnOff makes exactly one stop call and
gives `led_on = false`; the second TurnOff makes no call; the whole run has
exactly one stop call. -/
theorem scenario_A (cfg : Config) (buf : led_command_data_t) (b1 b2 : Nat)
    (hmax : cfg.LED_MAX_BRIGHTNESS ≤ 100) :
    (task_led_init cfg buf).1.led_on = true ∧
    PwmHw.run PwmHw.reset (task_led_init cfg buf).2 =
      { running := true, duty := some (100 - cfg.LED_MAX_BRIGHTNESS) } ∧
    (task_led_iteration cfg (task_led_init cfg buf).1
      (some ⟨led_command_t.LED_TURN_OFF, b1⟩)).2 = [HwCall.cyhal_pwm_stop] ∧
    (task_led_iteration cfg (task_led_init cfg buf).1
      (some ⟨led_command_t.LED_TURN_OFF, b1⟩)).1.led_on = false ∧
    (task_led_iteration cfg
      (task_led_iteration cfg (task_led_init cfg buf).1
        (some ⟨led_command_t.LED_TURN_OFF, b1⟩)).1
      (some ⟨led_command_t.LED_TURN_OFF, b2⟩)).2 = [] ∧
    (task_led cfg buf [some ⟨led_command_t.LED_TURN_OFF, b1⟩,
      some ⟨led_command_t.LED_TURN_OFF, b2⟩]).2 =
      (task_led_init cfg buf).2 ++ [HwCall.cyhal_pwm_stop] ∧
    stop_count (task_led cfg buf [some ⟨led_command_t.LED_TURN_OFF, b1⟩,
      some ⟨led_command_t.LED_TURN_OFF, b2⟩]).2 = 1 := by
  refine ⟨rfl, ?_, rfl, rfl, rfl, rfl, ?_⟩
  · simp [task_led_init, PwmHw.run, PwmHw.apply, PwmHw.reset,
      duty_arg_of_le _ hmax]
  · simp [task_led, task_led_loop, task_led_init, task_led_iteration, task_led_switch,
      stop_count]

/-- Witness for C8 at `LED_MAX_BRIGHTNESS = 100`. -/
theorem scenario_A_witness :
    (task_led_init cfg_ref buf_any).1.led_on = true ∧
    PwmHw.run PwmHw.reset (task_led_init cfg_ref buf_any).2 =
      { running := true, duty := some (100 - cfg_ref.LED_MAX_BRIGHTNESS) } ∧
    (task_led_iteration cfg_ref (task_led_init cfg_ref buf_any).1
      (some ⟨led_command_t.LED_TURN_OFF, 0⟩)).2 = [HwCall.cyhal_pwm_stop] ∧
    (task_led_iteration cfg_ref (task_led_init cfg_ref buf_any).1
      (some ⟨led_command_t.LED_TURN_OFF, 0⟩)).1.led_on = false ∧
    (task_led_iteration cfg_ref
      (task_led_iteration cfg_ref (task_led_init cfg_ref buf_any).1
        (some ⟨led_command_t.LED_TURN_OFF, 0⟩)).1
      (some ⟨led_command_t.LED_TURN_OFF, 0⟩)).2 = [] ∧
    (task_led cfg_ref buf_any [some ⟨led_command_t.LED_TURN_OFF, 0⟩,
      some ⟨led_command_t.LED_TURN_OFF, 0⟩]).2 =
      (task_led_init cfg_ref buf_any).2 ++ [HwCall.cyhal_pwm_stop] ∧
    stop_count (task_led cfg_ref buf_any [some ⟨led_command_t.LED_TURN_OFF, 0⟩,
      some ⟨led_command_t.LED_TURN_OFF, 0⟩]).2 = 1 :=
  scenario_A cfg_ref buf_any 0 0 (by decide)

/-- C10 (Scenario C): SetBrightness(0) while off makes no driver call and
leaves `is_on = false`. -/
theorem setbrightness_zero_while_off (cfg : Config) :
    step_calls cfg false ⟨led_command_t.LED_UPDATE_BRIGHTNESS, 0⟩ = [] ∧
    step cfg false ⟨led_command_t.LED_UPDATE_BRIGHTNESS, 0⟩ = false := by
  simp [step, step_calls, task_led_iteration, task_led_switch]

/-- C11: a received command whose tag is none of LED_TURN_ON, LED_TURN_OFF,
LED_UPDATE_BRIGHTNESS makes no driver call and leaves `led_on` unchanged,
whatever the state and the brightness payload; the iteration always yields a
next state (the received command is left in the buffer). -/
theorem unrecognised_command_absorbed (cfg : Config) (st : TaskState)
    (cmd : led_command_data_t)
    (hon : cmd.command ≠ led_command_t.LED_TURN_ON)
    (hoff : cmd.command ≠ led_command_t.LED_TURN_OFF)
    (hupd : cmd.command ≠ led_command_t.LED_UPDATE_BRIGHTNESS) :
    task_led_iteration cfg st (some cmd) = ({ st with led_cmd_data := cmd }, []) ∧
    (task_led_iteration cfg st (some cmd)).2 = [] ∧
    (task_led_iteration cfg st (some cmd)).1.led_on = st.led_on ∧
    step_calls cfg st.led_on cmd = [] ∧
    step cfg st.led_on cmd = st.led_on := by
  obtain ⟨tag, b⟩ := cmd
  cases tag with
  | LED_TURN_ON => exact absurd rfl hon
  | LED_TURN_OFF => exact absurd rfl hoff
  | LED_UPDATE_BRIGHTNESS => exact absurd rfl hupd
  | invalid raw => simp [step, step_calls, task_led_iteration, task_led_switch]

/-- Witness for C11: the tag `invalid 7` with payload 55, received while on. -/
theorem unrecognised_command_absorbed_witness :
    task_led_iteration cfg_ref ⟨true, buf_any⟩ (some ⟨led_command_t.invalid 7, 55⟩) =
      ({ (⟨true, buf_any⟩ : TaskState) with led_cmd_data := ⟨led_command_t.invalid 7, 55⟩ }, []) ∧
    (task_led_iteration cfg_ref ⟨true, buf_any⟩ (some ⟨led_command_t.invalid 7, 55⟩)).2 = [] ∧
    (task_led_iteration cfg_ref ⟨true, buf_any⟩
      (some ⟨led_command_t.invalid 7, 55⟩)).1.led_on = true ∧
    step_calls cfg_ref true ⟨led_command_t.invalid 7, 55⟩ = [] ∧
    step cfg_ref true ⟨led_command_t.invalid 7, 55⟩ = true :=
  unrecognised_command_absorbed cfg_ref ⟨true, buf_any⟩ ⟨led_command_t.invalid 7, 55⟩
    (by decide) (by decide) (by decide)

/-- The effect of a concatenated trace on the PWM block. -/
theorem PwmHw.run_append (hw : PwmHw) (xs ys : List HwCall) :
    PwmHw.run hw (xs ++ ys) = PwmHw.run (PwmHw.run hw xs) ys := by
  simp [PwmHw.run, List.foldl_append]

/-- One loop iteration keeps the running flag equal to `led_on`. -/
theorem iteration_keeps_consistency (cfg : Config) (st : TaskState) (hw : PwmHw)
    (rx : Option led_command_data_t) (h : hw.running = st.led_on) :
    (PwmHw.run hw (task_led_iteration cfg st rx).2).running =
      (task_led_iteration cfg st rx).1.led_on := by
  cases rx with
  | none => simpa [task_led_iteration, PwmHw.run] using h
  | some c =>
    obtain ⟨tag, b⟩ := c
    obtain ⟨lit, buf⟩ := st
    simp only at h
    cases tag with
    | LED_TURN_ON =>
      cases lit <;> simp [task_led_iteration, task_led_switch, PwmHw.run, PwmHw.apply, h]
    | LED_TURN_OFF =>
      cases lit <;> simp [task_led_iteration, task_led_switch, PwmHw.run, PwmHw.apply, h]
    | LED_UPDATE_BRIGHTNESS =>
      cases lit <;> by_cases hb : 0 < b <;>
        simp [task_led_iteration, task_led_switch, PwmHw.run, PwmHw.apply, h, hb]
    | invalid raw => simpa [task_led_iteration, task_led_switch, PwmHw.run] using h

/-- The loop keeps the running flag equal to `led_on`. -/
theorem loop_keeps_consistency (cfg : Config) (rxs : List (Option led_command_data_t)) :
    ∀ (st : TaskState) (hw : PwmHw), hw.running = st.led_on →
      (PwmHw.run hw (task_led_loop cfg st rxs).2).running =
        (task_led_loop cfg st rxs).1.led_on := by
  induction rxs with
  | nil =>
    intro st hw h
    simpa [task_led_loop, PwmHw.run] using h
  | cons rx rest ih =>
    intro st hw h
    simp only [task_led_loop, PwmHw.run_append]
    exact ih _ _ (iteration_keeps_consistency cfg st hw rx h)

/-- C12: after the initialisation and any finite sequence of receive outcomes
(commands with any tag, time-outs), `led_on` is true if and only if the PWM
output, tracked through the start and stop calls of the trace, is running. -/
theorem led_on_iff_running (cfg : Config) (buf : led_command_data_t)
    (rxs : List (Option led_command_data_t)) :
    ((task_led cfg buf rxs).1.led_on = true ↔
      (PwmHw.run PwmHw.reset (task_led cfg buf rxs).2).running = true) := by
  have h : (PwmHw.run PwmHw.reset (task_led cfg buf rxs).2).running =
      (task_led cfg buf rxs).1.led_on := by
    simp only [task_led, PwmHw.run_append]
    apply loop_keeps_consistency
    simp [task_led_init, PwmHw.run, PwmHw.apply, PwmHw.reset]
  rw [h]

/-- C13: an iteration whose receive returns without data makes no driver call
and leaves the whole state, `led_on` and the stale buffer, as it was, whatever
command the stale buffer holds; the loop goes on with the next receive. -/
theorem receive_without_data_is_noop (cfg : Config) (st : TaskState)
    (rest : List (Option led_command_data_t)) :
    task_led_iteration cfg st none = (st, []) ∧
    (task_led_iteration cfg st none).2 = [] ∧
    (task_led_iteration cfg st none).1.led_on = st.led_on ∧
    task_led_loop cfg st (none :: rest) = task_led_loop cfg st rest := by
  simp [task_led_iteration, task_led_loop]

/-- C15: from a state with `led_on = true`, if the iteration that receives
`cmd` ends with `led_on = false`, then the tag of `cmd` is LED_TURN_OFF;
SetBrightness(0) while on keeps the LED on. -/
theorem only_turn_off_switches_off (cfg : Config) (st : TaskState)
    (cmd : led_command_data_t) (hon : st.led_on = true)
    (hoff : (task_led_iteration cfg st (some cmd)).1.led_on = false) :
    cmd.command = led_command_t.LED_TURN_OFF ∧
    (task_led_iteration cfg st (some ⟨led_command_t.LED_UPDATE_BRIGHTNESS, 0⟩)).1.led_on = true ∧
    step cfg true ⟨led_command_t.LED_UPDATE_BRIGHTNESS, 0⟩ = true := by
  obtain ⟨tag, b⟩ := cmd
  obtain ⟨lit, buf⟩ := st
  simp only at hon
  subst hon
  refine ⟨?_, ?_, ?_⟩
  · cases tag with
    | LED_TURN_ON => simp [task_led_iteration, task_led_switch] at hoff
    | LED_TURN_OFF => rfl
    | LED_UPDATE_BRIGHTNESS => simp [task_led_iteration, task_led_switch] at hoff
    | invalid raw => simp [task_led_iteration, task_led_switch] at hoff
  · simp [task_led_iteration, task_led_switch]
  · simp [step, task_led_iteration, task_led_switch]

/-- Witness for C15: TurnOff received while on. -/
theorem only_turn_off_switches_off_witness :
    (⟨led_command_t.LED_TURN_OFF, 0⟩ : led_command_data_t).command =
      led_command_t.LED_TURN_OFF ∧
    (task_led_iteration cfg_ref ⟨true, buf_any⟩
      (some ⟨led_command_t.LED_UPDATE_BRIGHTNESS, 0⟩)).1.led_on = true ∧
    step cfg_ref true ⟨led_command_t.LED_UPDATE_BRIGHTNESS, 0⟩ = true :=
  only_turn_off_switches_off cfg_ref ⟨true, buf_any⟩ ⟨led_command_t.LED_TURN_OFF, 0⟩ rfl rfl

/-- C16: receiving the same command a second time changes neither `led_on`
nor the duty programmed last (nor the running flag), from every state of the
task and of the PWM block. -/
theorem step_hw_reapply (cfg : Config) (s : TaskState × PwmHw) (cmd : led_command_data_t) :
    (step_hw cfg (step_hw cfg s cmd) cmd).1.led_on = (step_hw cfg s cmd).1.led_on ∧
    (step_hw cfg (step_hw cfg s cmd) cmd).2.duty = (step_hw cfg s cmd).2.duty ∧
    (step_hw cfg (step_hw cfg s cmd) cmd).2.running = (step_hw cfg s cmd).2.running := by
  obtain ⟨⟨lit, buf⟩, hw⟩ := s
  obtain ⟨tag, b⟩ := cmd
  cases tag with
  | LED_TURN_ON =>
    cases lit <;>
      simp [step_hw, task_led_iteration, task_led_switch, PwmHw.run, PwmHw.apply]
  | LED_TURN_OFF =>
    cases lit <;>
      simp [step_hw, task_led_iteration, task_led_switch, PwmHw.run, PwmHw.apply]
  | LED_UPDATE_BRIGHTNESS =>
    cases lit <;> by_cases hb : 0 < b <;>
      simp [step_hw, task_led_iteration, task_led_switch, PwmHw.run, PwmHw.apply, hb]
  | invalid raw =>
    simp [step_hw, task_led_iteration, task_led_switch, PwmHw.run]

/-- The lower clamp of the LED_UPDATE_BRIGHTNESS case is a maximum. -/
theorem clamp_eq_max (m b : Nat) : (if b < m then m else b) = max b m := by
  by_cases h : b < m
  · rw [if_pos h, max_eq_right (by omega)]
  · rw [if_neg h, max_eq_left (by omega)]

/-- C17: with `LED_MIN_BRIGHTNESS <= 100` and `b1 <= b2 <= 100`, the duty
SetBrightness(b2) programs, `GET_DUTY_CYCLE(max(b2, LED_MIN_BRIGHTNESS))`, is
at most the duty SetBrightness(b1) programs. -/
theorem duty_antitone (cfg : Config) (b1 b2 : Nat)
    (hmin : cfg.LED_MIN_BRIGHTNESS ≤ 100) (h12 : b1 ≤ b2) (h2 : b2 ≤ 100) :
    duties (step_calls cfg true ⟨led_command_t.LED_UPDATE_BRIGHTNESS, b1⟩) =
      [GET_DUTY_CYCLE (max b1 cfg.LED_MIN_BRIGHTNESS)] ∧
    duties (step_calls cfg true ⟨led_command_t.LED_UPDATE_BRIGHTNESS, b2⟩) =
      [GET_DUTY_CYCLE (max b2 cfg.LED_MIN_BRIGHTNESS)] ∧
    GET_DUTY_CYCLE (max b2 cfg.LED_MIN_BRIGHTNESS) ≤
      GET_DUTY_CYCLE (max b1 cfg.LED_MIN_BRIGHTNESS) := by
  have hm1 : max b1 cfg.LED_MIN_BRIGHTNESS ≤ max b2 cfg.LED_MIN_BRIGHTNESS :=
    max_le_max h12 (le_refl _)
  have hm2 : max b2 cfg.LED_MIN_BRIGHTNESS ≤ 100 := max_le h2 hmin
  refine ⟨?_, ?_, ?_⟩
  · rw [step_calls_update cfg true b1 (Or.inl rfl), clamp_eq_max,
      duty_arg_eq_of_le _ (le_trans hm1 hm2)]
    rfl
  · rw [step_calls_update cfg true b2 (Or.inl rfl), clamp_eq_max, duty_arg_eq_of_le _ hm2]
    rfl
  · rw [GET_DUTY_CYCLE_of_le _ hm2, GET_DUTY_CYCLE_of_le _ (le_trans hm1 hm2)]
    omega

/-- Witness for C17 at `b1 = 1`, `b2 = 60`, `LED_MIN_BRIGHTNESS = 2`. -/
theorem duty_antitone_witness :
    duties (step_calls cfg_ref true ⟨led_command_t.LED_UPDATE_BRIGHTNESS, 1⟩) =
      [GET_DUTY_CYCLE (max 1 cfg_ref.LED_MIN_BRIGHTNESS)] ∧
    duties (step_calls cfg_ref true ⟨led_command_t.LED_UPDATE_BRIGHTNESS, 60⟩) =
      [GET_DUTY_CYCLE (max 60 cfg_ref.LED_MIN_BRIGHTNESS)] ∧
    GET_DUTY_CYCLE (max 60 cfg_ref.LED_MIN_BRIGHTNESS) ≤
      GET_DUTY_CYCLE (max 1 cfg_ref.LED_MIN_BRIGHTNESS) :=
  duty_antitone cfg_ref 1 60 (by decide) (by decide) (by decide)

end LedTask
